import Mathlib

/-!
Verification development for the LandcLogFace logging facade.

Shallow embedding of the Go sources: the severity model (`logger.go`),
the console adapter (`console_logger.go`), the standard-library adapter
(`std_logger.go`), the zap and logrus adapters (to construction depth,
as the registry only stores them), the log factory (`log_factory.go`)
and the global accessor layer.

Side effects are made explicit: an emission method returns the printed
line as `Option String` (`none` when the call is gated off), and the
process-level effect of `Fatal`/`Panic` is an explicit `Outcome` value.
`time.Now()` inside `formatMessage` is modelled by passing the rendered
timestamp as an explicit argument. Go slices of fields are modelled as
lists (the observable sequence of a slice); Go maps are modelled as
association lists whose lookup takes the most recent binding.
-/

/-! ## Severity model (logger.go) -/

/-- Go `type LogLevel int`. -/
abbrev LogLevel := Int

def DebugLevel : LogLevel := 0
def InfoLevel : LogLevel := 1
def WarnLevel : LogLevel := 2
def ErrorLevel : LogLevel := 3
def FatalLevel : LogLevel := 4
def PanicLevel : LogLevel := 5

/-- Go `func (l LogLevel) String() string`: the switch over the six
declared constants, `default` branch returning UNKNOWN. -/
def LogLevel.render (l : LogLevel) : String :=
  if l = DebugLevel then ("DEBUG")
  else if l = InfoLevel then ("INFO")
  else if l = WarnLevel then ("WARN")
  else if l = ErrorLevel then ("ERROR")
  else if l = FatalLevel then ("FATAL")
  else if l = PanicLevel then ("PANIC")
  else ("UNKNOWN")

/-- Model of Go `interface\x7b\x7d` values that flow through fields and
configuration maps in this repository: strings, ints, `LogLevel` values,
`error` values (their message) and `time.Time` values (an instant id). -/
inductive Value
  | str (s : String)
  | int (n : Int)
  | level (l : LogLevel)
  | err (msg : String)
  | time (t : Nat)
deriving DecidableEq, Repr

/-- Rendering of a value by the `%v` verb of `fmt`. -/
def Value.render : Value → String
  | .str s => s
  | .int n => toString n
  | .level l => LogLevel.render l
  | .err m => m
  | .time t => toString t

/-- Go `type Field struct \x7b Key string; Value interface\x7b\x7d \x7d`. -/
structure LogField where
  key : String
  value : Value
deriving DecidableEq, Repr

/-- Model of Go `context.Context`: the background context or some
caller-supplied context distinguished by an id. -/
inductive GoContext
  | background
  | withValue (id : Nat)
deriving DecidableEq, Repr

/-- The sink a logger writes to. Go resolves `OutputPath`: the literal
path "stdout" means `os.Stdout`; any other path is opened with
`os.OpenFile`, silently falling back to stdout when the open fails.
`fileOrStdout p` stands for that opened-file-or-fallback sink; no claim
distinguishes the two outcomes, the constructor records the request. -/
inductive Sink
  | stdout
  | fileOrStdout (path : String)
deriving DecidableEq, Repr

/-- Go configuration map `map[string]interface\x7b\x7d`, as an
association list. -/
abbrev Config := List (String × Value)

/-- Map lookup `config[key]`. -/
def configLookup (config : Config) (key : String) : Option Value :=
  (config.find? (fun kv => kv.1 = key)).map (fun kv => kv.2)

/-- Go `config[key].(string)` type assertion: some string on success,
none when the key is absent or holds a non-string. -/
def configGetString (config : Config) (key : String) : Option String :=
  match configLookup config key with
  | some (.str s) => some s
  | _ => none

/-- Go `config[key].(LogLevel)` type assertion. -/
def configGetLevel (config : Config) (key : String) : Option LogLevel :=
  match configLookup config key with
  | some (.level l) => some l
  | _ => none

/-- Go `type LoggerOptions struct`. -/
structure LoggerOptions where
  Level : LogLevel
  Format : String
  OutputPath : String
  Config : Config
deriving Repr

/-- Go `type Option func(*LoggerOptions)`, modelled functionally. -/
abbrev OptionFn := LoggerOptions → LoggerOptions

/-- Go `WithLevel`. -/
def WithLevel (level : LogLevel) : OptionFn :=
  fun opt => { opt with Level := level }

/-- Go `WithFormat`. -/
def WithFormat (format : String) : OptionFn :=
  fun opt => { opt with Format := format }

/-- Go `WithOutputPath`. -/
def WithOutputPath (path : String) : OptionFn :=
  fun opt => { opt with OutputPath := path }

/-- Go `WithConfig`. -/
def WithConfig (config : Config) : OptionFn :=
  fun opt => { opt with Config := config }

/-- Application of an ordered sequence of option mutators, as in the
`for _, opt := range opts \x7b opt(options) \x7d` loop. -/
def applyOptions (opts : List OptionFn) (base : LoggerOptions) : LoggerOptions :=
  opts.foldl (fun o f => f o) base

/-- Output resolution shared by all adapters: "stdout" means stdout,
anything else is the opened file (or stdout on open failure). -/
def resolveOutput (path : String) : Sink :=
  if path = ("stdout") then .stdout else .fileOrStdout path

/-! ## Model of `fmt.Sprintf` template substitution -/

/-- Substitution of the next argument for each `%v` / `%s` / `%d` verb,
over the character list of the format string. -/
def sprintfAux : List Char → List Value → List Char
  | [], _ => []
  | '%' :: c :: rest, arg :: args =>
      if c = 'v' ∨ c = 's' ∨ c = 'd' then
        arg.render.toList ++ sprintfAux rest args
      else
        '%' :: c :: sprintfAux rest (arg :: args)
  | c :: rest, args => c :: sprintfAux rest args

/-- Model of `fmt.Sprintf(format, args...)` for the verbs this
repository uses. -/
def sprintf (format : String) (args : List Value) : String :=
  ⟨sprintfAux format.toList args⟩

/-- Process-level effect of an emission call: normal return, process
exit (`os.Exit`), or a Go panic carrying a message. -/
inductive Outcome
  | normal
  | exited (code : Int)
  | panicked (msg : String)
deriving DecidableEq, Repr

/-! ## Console adapter (ConsoleLogger) -/

/-- Go `type ConsoleLogger struct`: level, fields, ctx, the wrapped
`log.Logger` (represented by its sink) and name. -/
structure ConsoleLogger where
  level : LogLevel
  fields : List LogField
  ctx : GoContext
  sink : Sink
  name : String
deriving DecidableEq, Repr

/-- Go `NewConsoleLogger(name, opts...)`: defaults Info / "text" /
"stdout", then the option mutators in order. -/
def NewConsoleLogger (name : String) (opts : List OptionFn := []) : ConsoleLogger :=
  let options := applyOptions opts
    { Level := InfoLevel, Format := ("text"), OutputPath := ("stdout"), Config := [] }
  { level := options.Level
    fields := []
    ctx := .background
    sink := resolveOutput options.OutputPath
    name := name }

/-- Go `SetLevel`: mutates the handle in place; modelled as returning
the updated handle. -/
def ConsoleLogger.SetLevel (c : ConsoleLogger) (level : LogLevel) : ConsoleLogger :=
  { c with level := level }

/-- Go `GetLevel`. -/
def ConsoleLogger.GetLevel (c : ConsoleLogger) : LogLevel :=
  c.level

/-- Go `allFields := append(c.fields, fields...)` inside
`formatMessage`: bound fields first, call-site fields appended. -/
def ConsoleLogger.allFields (c : ConsoleLogger) (fields : List LogField) : List LogField :=
  c.fields ++ fields

/-- The `fieldStr` accumulation loop of `formatMessage`:
one ` key=value` chunk per field, in sequence order. -/
def fieldsString (fields : List LogField) : String :=
  fields.foldl (fun acc field => acc ++ " " ++ field.key ++ "=" ++ field.value.render) ("")

/-- Go `formatMessage(level, msg, fields)`. The `time.Now()` timestamp
is passed in as `ts`. -/
def ConsoleLogger.formatMessage (c : ConsoleLogger) (ts : String) (level : LogLevel)
    (msg : String) (fields : List LogField) : String :=
  ts ++ " [" ++ level.render ++ "] [" ++ c.name ++ "] " ++ msg ++
    fieldsString (c.allFields fields)

/-- Go `Debug`: prints the formatted line iff `c.level <= DebugLevel`. -/
def ConsoleLogger.Debug (c : ConsoleLogger) (ts msg : String) (fields : List LogField) :
    Option String :=
  if c.level ≤ DebugLevel then some (c.formatMessage ts DebugLevel msg fields) else none

/-- Go `Debugf`: same gate, message from `fmt.Sprintf`, nil fields. -/
def ConsoleLogger.Debugf (c : ConsoleLogger) (ts format : String) (args : List Value) :
    Option String :=
  if c.level ≤ DebugLevel then
    some (c.formatMessage ts DebugLevel (sprintf format args) [])
  else none

/-- Go `Info`. -/
def ConsoleLogger.Info (c : ConsoleLogger) (ts msg : String) (fields : List LogField) :
    Option String :=
  if c.level ≤ InfoLevel then some (c.formatMessage ts InfoLevel msg fields) else none

/-- Go `Infof`. -/
def ConsoleLogger.Infof (c : ConsoleLogger) (ts format : String) (args : List Value) :
    Option String :=
  if c.level ≤ InfoLevel then
    some (c.formatMessage ts InfoLevel (sprintf format args) [])
  else none

/-- Go `Warn`. -/
def ConsoleLogger.Warn (c : ConsoleLogger) (ts msg : String) (fields : List LogField) :
    Option String :=
  if c.level ≤ WarnLevel then some (c.formatMessage ts WarnLevel msg fields) else none

/-- Go `Warnf`. -/
def ConsoleLogger.Warnf (c : ConsoleLogger) (ts format : String) (args : List Value) :
    Option String :=
  if c.level ≤ WarnLevel then
    some (c.formatMessage ts WarnLevel (sprintf format args) [])
  else none

/-- Go `Error`. -/
def ConsoleLogger.Error (c : ConsoleLogger) (ts msg : String) (fields : List LogField) :
    Option String :=
  if c.level ≤ ErrorLevel then some (c.formatMessage ts ErrorLevel msg fields) else none

/-- Go `Errorf`. -/
def ConsoleLogger.Errorf (c : ConsoleLogger) (ts format : String) (args : List Value) :
    Option String :=
  if c.level ≤ ErrorLevel then
    some (c.formatMessage ts ErrorLevel (sprintf format args) [])
  else none

/-- Go `Fatal`: inside the gate, prints then `os.Exit(1)`. -/
def ConsoleLogger.Fatal (c : ConsoleLogger) (ts msg : String) (fields : List LogField) :
    Option String × Outcome :=
  if c.level ≤ FatalLevel then
    (some (c.formatMessage ts FatalLevel msg fields), .exited 1)
  else (none, .normal)

/-- Go `Fatalf`. -/
def ConsoleLogger.Fatalf (c : ConsoleLogger) (ts format : String) (args : List Value) :
    Option String × Outcome :=
  if c.level ≤ FatalLevel then
    (some (c.formatMessage ts FatalLevel (sprintf format args) []), .exited 1)
  else (none, .normal)

/-- Go `Panic`: inside the gate, prints the formatted message then
panics with that same message. -/
def ConsoleLogger.Panic (c : ConsoleLogger) (ts msg : String) (fields : List LogField) :
    Option String × Outcome :=
  if c.level ≤ PanicLevel then
    (some (c.formatMessage ts PanicLevel msg fields),
      .panicked (c.formatMessage ts PanicLevel msg fields))
  else (none, .normal)

/-- Go `Panicf`. -/
def ConsoleLogger.Panicf (c : ConsoleLogger) (ts format : String) (args : List Value) :
    Option String × Outcome :=
  if c.level ≤ PanicLevel then
    (some (c.formatMessage ts PanicLevel (sprintf format args) []),
      .panicked (c.formatMessage ts PanicLevel (sprintf format args) []))
  else (none, .normal)

/-- Go `WithFields`: shallow copy of the receiver, fields appended. -/
def ConsoleLogger.WithFields (c : ConsoleLogger) (fields : List LogField) : ConsoleLogger :=
  { c with fields := c.fields ++ fields }

/-- Go `WithField`. -/
def ConsoleLogger.WithField (c : ConsoleLogger) (key : String) (value : Value) :
    ConsoleLogger :=
  c.WithFields [⟨key, value⟩]

/-- Go `WithContext`: shallow copy with the context replaced. -/
def ConsoleLogger.WithContext (c : ConsoleLogger) (ctx : GoContext) : ConsoleLogger :=
  { c with ctx := ctx }

/-- Go `WithError`: binds the error under key "error". -/
def ConsoleLogger.WithError (c : ConsoleLogger) (errMsg : String) : ConsoleLogger :=
  c.WithField ("error") (.err errMsg)

/-- Go `WithTime`: binds the time under key "time". -/
def ConsoleLogger.WithTime (c : ConsoleLogger) (t : Nat) : ConsoleLogger :=
  c.WithField ("time") (.time t)

/-- Go `IsDebugEnabled`. -/
def ConsoleLogger.IsDebugEnabled (c : ConsoleLogger) : Bool :=
  decide (c.level ≤ DebugLevel)

/-- Go `IsInfoEnabled`. -/
def ConsoleLogger.IsInfoEnabled (c : ConsoleLogger) : Bool :=
  decide (c.level ≤ InfoLevel)

/-- Go `IsWarnEnabled`. -/
def ConsoleLogger.IsWarnEnabled (c : ConsoleLogger) : Bool :=
  decide (c.level ≤ WarnLevel)

/-- Go `IsErrorEnabled`. -/
def ConsoleLogger.IsErrorEnabled (c : ConsoleLogger) : Bool :=
  decide (c.level ≤ ErrorLevel)

/-- Go `IsFatalEnabled`. -/
def ConsoleLogger.IsFatalEnabled (c : ConsoleLogger) : Bool :=
  decide (c.level ≤ FatalLevel)

/-- Go `IsPanicEnabled`. -/
def ConsoleLogger.IsPanicEnabled (c : ConsoleLogger) : Bool :=
  decide (c.level ≤ PanicLevel)

/-- Go `Sync`: the console adapter buffers nothing, always returns nil.
The Go `error` result is modelled as `Option String`. -/
def ConsoleLogger.Sync (_ : ConsoleLogger) : Option String :=
  none

/-! ## Standard-library adapter (StdLogger) -/

/-- Go `type StdLogger struct`: same shape as the console adapter,
wrapping a `log.Logger` with `log.LstdFlags`. -/
structure StdLogger where
  level : LogLevel
  fields : List LogField
  ctx : GoContext
  sink : Sink
  name : String
deriving DecidableEq, Repr

/-- Go `NewStdLogger(name, opts...)`: defaults Info / "text" /
"stdout". -/
def NewStdLogger (name : String) (opts : List OptionFn := []) : StdLogger :=
  let options := applyOptions opts
    { Level := InfoLevel, Format := ("text"), OutputPath := ("stdout"), Config := [] }
  { level := options.Level
    fields := []
    ctx := .background
    sink := resolveOutput options.OutputPath
    name := name }

/-- Go `StdLogger.formatMessage`: no timestamp of its own (the wrapped
`log.Logger` prefixes one via `log.LstdFlags`). -/
def StdLogger.formatMessage (s : StdLogger) (level : LogLevel) (msg : String)
    (fields : List LogField) : String :=
  "[" ++ level.render ++ "] [" ++ s.name ++ "] " ++ msg ++
    fieldsString (s.fields ++ fields)

/-- Go `StdLogger.WithFields`. -/
def StdLogger.WithFields (s : StdLogger) (fields : List LogField) : StdLogger :=
  { s with fields := s.fields ++ fields }

/-- Go `StdLogger.WithField`. -/
def StdLogger.WithField (s : StdLogger) (key : String) (value : Value) : StdLogger :=
  s.WithFields [⟨key, value⟩]

/-- Go `StdLogger.WithContext`. -/
def StdLogger.WithContext (s : StdLogger) (ctx : GoContext) : StdLogger :=
  { s with ctx := ctx }

/-! ## Zap and logrus adapters, to construction depth

The claims use these adapters only as registry entries, so their model
carries the state their Go structs store (level, fields, ctx, name);
the wrapped third-party logger instance is external. -/

/-- Go `type ZapLogger struct`, stored state. -/
structure ZapLogger where
  level : LogLevel
  fields : List LogField
  ctx : GoContext
  name : String
deriving DecidableEq, Repr

/-- Go `NewZapLogger(name, opts...)`: defaults Info / "json" /
"stdout". -/
def NewZapLogger (name : String) (opts : List OptionFn := []) : ZapLogger :=
  let options := applyOptions opts
    { Level := InfoLevel, Format := ("json"), OutputPath := ("stdout"), Config := [] }
  { level := options.Level, fields := [], ctx := .background, name := name }

/-- Go `type LogrusLogger struct`, stored state. -/
structure LogrusLogger where
  level : LogLevel
  fields : List LogField
  ctx : GoContext
  name : String
deriving DecidableEq, Repr

/-- Go `NewLogrusLogger(name, opts...)`: defaults Info / "text" /
"stdout". -/
def NewLogrusLogger (name : String) (opts : List OptionFn := []) : LogrusLogger :=
  let options := applyOptions opts
    { Level := InfoLevel, Format := ("text"), OutputPath := ("stdout"), Config := [] }
  { level := options.Level, fields := [], ctx := .background, name := name }

/-! ## The Logger interface value and the providers -/

/-- A Go `Logger` interface value: one of the four adapters of this
repository. -/
inductive Logger
  | console (c : ConsoleLogger)
  | std (s : StdLogger)
  | zap (z : ZapLogger)
  | logrus (l : LogrusLogger)
deriving DecidableEq, Repr

/-- A Go `LoggerProvider` interface value: its two methods. -/
structure LoggerProvider where
  Create : String → Logger
  CreateWithConfig : String → Config → Logger

/-- Go `ConsoleLoggerProvider.CreateWithConfig`: the three recognized
keys with their type assertions and defaults, then `NewConsoleLogger`
with the corresponding option mutators. -/
def consoleCreateWithConfig (name : String) (config : Config) : Logger :=
  let level := match configGetLevel config ("level") with
    | some lvl => lvl
    | none => InfoLevel
  let format := match configGetString config ("format") with
    | some f => f
    | none => ("text")
  let outputPath := match configGetString config ("outputPath") with
    | some p => p
    | none => ("stdout")
  .console (NewConsoleLogger name
    [WithLevel level, WithFormat format, WithOutputPath outputPath, WithConfig config])

/-- Go `NewConsoleLoggerProvider()` with its two methods. -/
def consoleLoggerProvider : LoggerProvider :=
  { Create := fun name => .console (NewConsoleLogger name)
    CreateWithConfig := consoleCreateWithConfig }

/-- Go `StdLoggerProvider.CreateWithConfig`. -/
def stdCreateWithConfig (name : String) (config : Config) : Logger :=
  let level := match configGetLevel config ("level") with
    | some lvl => lvl
    | none => InfoLevel
  let format := match configGetString config ("format") with
    | some f => f
    | none => ("text")
  let outputPath := match configGetString config ("outputPath") with
    | some p => p
    | none => ("stdout")
  .std (NewStdLogger name
    [WithLevel level, WithFormat format, WithOutputPath outputPath, WithConfig config])

/-- Go `NewStdLoggerProvider()` with its two methods. -/
def stdLoggerProvider : LoggerProvider :=
  { Create := fun name => .std (NewStdLogger name)
    CreateWithConfig := stdCreateWithConfig }

/-- Go `ZapLoggerProvider.CreateWithConfig` (format default "json"). -/
def zapCreateWithConfig (name : String) (config : Config) : Logger :=
  let level := match configGetLevel config ("level") with
    | some lvl => lvl
    | none => InfoLevel
  let format := match configGetString config ("format") with
    | some f => f
    | none => ("json")
  let outputPath := match configGetString config ("outputPath") with
    | some p => p
    | none => ("stdout")
  .zap (NewZapLogger name
    [WithLevel level, WithFormat format, WithOutputPath outputPath, WithConfig config])

/-- Go `NewZapLoggerProvider()` with its two methods. -/
def zapLoggerProvider : LoggerProvider :=
  { Create := fun name => .zap (NewZapLogger name)
    CreateWithConfig := zapCreateWithConfig }

/-- Go `LogrusLoggerProvider.CreateWithConfig`. -/
def logrusCreateWithConfig (name : String) (config : Config) : Logger :=
  let level := match configGetLevel config ("level") with
    | some lvl => lvl
    | none => InfoLevel
  let format := match configGetString config ("format") with
    | some f => f
    | none => ("text")
  let outputPath := match configGetString config ("outputPath") with
    | some p => p
    | none => ("stdout")
  .logrus (NewLogrusLogger name
    [WithLevel level, WithFormat format, WithOutputPath outputPath, WithConfig config])

/-- Go `NewLogrusLoggerProvider()` with its two methods. -/
def logrusLoggerProvider : LoggerProvider :=
  { Create := fun name => .logrus (NewLogrusLogger name)
    CreateWithConfig := logrusCreateWithConfig }

/-! ## Log factory (log_factory.go) -/

/-- Go `type LogFactory struct`: the provider map (association list,
most recent registration found first — map semantics) and the default
provider name. The `sync.RWMutex` guards concurrent access and has no
sequential content. -/
structure LogFactory where
  providers : List (String × LoggerProvider)
  defaultProvider : String

/-- Go `NewLogFactory()`: empty map, default provider "console". -/
def NewLogFactory : LogFactory :=
  { providers := [], defaultProvider := ("console") }

/-- Go `RegisterProvider`: insert or overwrite. -/
def LogFactory.RegisterProvider (f : LogFactory) (name : String)
    (provider : LoggerProvider) : LogFactory :=
  { f with providers := (name, provider) :: f.providers }

/-- Go `UnregisterProvider`: delete if present. -/
def LogFactory.UnregisterProvider (f : LogFactory) (name : String) : LogFactory :=
  { f with providers := f.providers.filter (fun kv => kv.1 ≠ name) }

/-- Go `SetDefaultProvider`. -/
def LogFactory.SetDefaultProvider (f : LogFactory) (name : String) : LogFactory :=
  { f with defaultProvider := name }

/-- Go `GetDefaultProvider`. -/
def LogFactory.GetDefaultProvider (f : LogFactory) : String :=
  f.defaultProvider

/-- Go `GetProvider`: map lookup with existence flag, here the
`Option` result. -/
def LogFactory.GetProvider (f : LogFactory) (name : String) : Option LoggerProvider :=
  (f.providers.find? (fun kv => kv.1 = name)).map (fun kv => kv.2)

/-- Go `CreateLoggerWithProvider`: resolve the named provider; if
absent, resolve the default provider; if that is also absent, return
the hard-coded `NewConsoleLogger(name)`. -/
def LogFactory.CreateLoggerWithProvider (f : LogFactory) (name providerName : String) :
    Logger :=
  match f.GetProvider providerName with
  | some provider => provider.Create name
  | none =>
    match f.GetProvider f.defaultProvider with
    | some provider => provider.Create name
    | none => .console (NewConsoleLogger name)

/-- Go `CreateLogger`. -/
def LogFactory.CreateLogger (f : LogFactory) (name : String) : Logger :=
  f.CreateLoggerWithProvider name f.defaultProvider

/-- Go `CreateLoggerWithConfig`: the provider name comes from the
"provider" key (string assertion) or the default; then the same
fallback chain, ending in the resolved provider's `CreateWithConfig`. -/
def LogFactory.CreateLoggerWithConfig (f : LogFactory) (name : String) (config : Config) :
    Logger :=
  let providerName := match configGetString config ("provider") with
    | some pn => pn
    | none => f.defaultProvider
  match f.GetProvider providerName with
  | some provider => provider.CreateWithConfig name config
  | none =>
    match f.GetProvider f.defaultProvider with
    | some provider => provider.CreateWithConfig name config
    | none => .console (NewConsoleLogger name)

/-- Go `GetLogFactory()`: the one-shot initializer registers the four
providers and sets "console" as the default. -/
def GetLogFactory : LogFactory :=
  ((((NewLogFactory.RegisterProvider ("console") consoleLoggerProvider).RegisterProvider
      ("zap") zapLoggerProvider).RegisterProvider
      ("logrus") logrusLoggerProvider).RegisterProvider
      ("std") stdLoggerProvider).SetDefaultProvider ("console")

/-! ## Global accessor layer -/

/-- The package-level mutable state behind `GetLogger` /
`SetGlobalLogger`: the `globalLogger` variable (nil before any
assignment) and whether `loggerOnce` has fired. -/
structure GlobalLoggerState where
  globalLogger : Option Logger
  loggerOnce : Bool
deriving DecidableEq, Repr

/-- The zero value of the package state: nil logger, once not fired. -/
def initialGlobalState : GlobalLoggerState :=
  { globalLogger := none, loggerOnce := false }

/-- Go `GetLogger()`: `loggerOnce.Do` assigns
`GetLogFactory().CreateLogger("global")` on its first run, then the
current `globalLogger` is returned. Returns the read value and the
state after the call. -/
def GetLogger (s : GlobalLoggerState) : Option Logger × GlobalLoggerState :=
  if s.loggerOnce then (s.globalLogger, s)
  else
    let l := GetLogFactory.CreateLogger ("global")
    (some l, { globalLogger := some l, loggerOnce := true })

/-- Go `SetGlobalLogger(logger)`: plain assignment; `loggerOnce` is
untouched. -/
def SetGlobalLogger (s : GlobalLoggerState) (logger : Logger) : GlobalLoggerState :=
  { s with globalLogger := some logger }

/-! ## Call-level dispatch

Each leveled emission method of the Go interface is one of six named
methods; `CallLevel` enumerates them so a single statement can range
over all calls. -/

/-- One of the six leveled emission calls. -/
inductive CallLevel
  | debug
  | info
  | warn
  | error
  | fatal
  | panic
deriving DecidableEq, Repr

/-- The declared `LogLevel` constant of each call. -/
def CallLevel.toLevel : CallLevel → LogLevel
  | .debug => DebugLevel
  | .info => InfoLevel
  | .warn => WarnLevel
  | .error => ErrorLevel
  | .fatal => FatalLevel
  | .panic => PanicLevel

/-- The line printed by the emission call at a given level (for
`Fatal`/`Panic`, the printed component of the result). -/
def ConsoleLogger.emitLine (c : ConsoleLogger) (ts : String) (l : CallLevel)
    (msg : String) (fields : List LogField) : Option String :=
  match l with
  | .debug => c.Debug ts msg fields
  | .info => c.Info ts msg fields
  | .warn => c.Warn ts msg fields
  | .error => c.Error ts msg fields
  | .fatal => (c.Fatal ts msg fields).1
  | .panic => (c.Panic ts msg fields).1

/-- The enablement query matching each emission call. -/
def ConsoleLogger.isEnabled (c : ConsoleLogger) : CallLevel → Bool
  | .debug => c.IsDebugEnabled
  | .info => c.IsInfoEnabled
  | .warn => c.IsWarnEnabled
  | .error => c.IsErrorEnabled
  | .fatal => c.IsFatalEnabled
  | .panic => c.IsPanicEnabled

/-! ## Concrete inputs used by counterexamples -/

/-- A logger distinct from the one `GetLogger` constructs. -/
def otherLogger : Logger :=
  .std (NewStdLogger ("other"))

/-- A console handle whose threshold is the Panic level. -/
def panicThresholdLogger : ConsoleLogger :=
  (NewConsoleLogger ("svc")).SetLevel PanicLevel

/-! ## Helper lemmas -/

/-- Presence of the optional line of a gated emission. -/
theorem isSomeIte {α : Type} (p : Prop) [Decidable p] (a : α) :
    (if p then some a else none).isSome = decide p := by
  by_cases h : p <;> simp [h]

/-- Presence of the optional line of a gated emission paired with an
outcome. -/
theorem isSomeItePair {α β : Type} (p : Prop) [Decidable p] (a : α) (x y : β) :
    ((if p then (some a, x) else (none, y)).1).isSome = decide p := by
  by_cases h : p <;> simp [h]

/-- The field-string fold from any accumulator. -/
theorem fieldsStringGo (fs : List LogField) (acc : String) :
    fs.foldl (fun acc field => acc ++ " " ++ field.key ++ "=" ++ field.value.render) acc
      = acc ++ fieldsString fs := by
  induction fs generalizing acc with
  | nil => simp [fieldsString]
  | cons f t ih =>
      have h1 : fieldsString (f :: t)
          = ("" ++ " " ++ f.key ++ "=" ++ f.value.render) ++ fieldsString t := by
        unfold fieldsString
        rw [List.foldl_cons, ih]
        rfl
      rw [List.foldl_cons, ih, h1]
      simp [String.empty_append, String.append_assoc]

/-- `fieldsString` renders a concatenation of field sequences in
order. -/
theorem fieldsString_append (xs ys : List LogField) :
    fieldsString (xs ++ ys) = fieldsString xs ++ fieldsString ys := by
  rw [fieldsString, List.foldl_append, fieldsStringGo]
  rfl

/-! ## Claim theorems -/

/-- C9: severity rendering is total and canonical: the six declared
levels (declared in order Debug, Info, Warn, Error, Fatal, Panic as the
constants 0..5) render to their canonical upper-case names, and every
integer outside 0..5 renders as UNKNOWN rather than failing. -/
theorem severity_render_total_canonical :
    LogLevel.render DebugLevel = ("DEBUG")
    ∧ LogLevel.render InfoLevel = ("INFO")
    ∧ LogLevel.render WarnLevel = ("WARN")
    ∧ LogLevel.render ErrorLevel = ("ERROR")
    ∧ LogLevel.render FatalLevel = ("FATAL")
    ∧ LogLevel.render PanicLevel = ("PANIC")
    ∧ ∀ l : Int, (l < 0 ∨ 5 < l) → LogLevel.render l = ("UNKNOWN") := by
  refine ⟨rfl, rfl, rfl, rfl, rfl, rfl, ?_⟩
  intro l h
  have h0 : ¬ (l = (0 : Int)) := by omega
  have h1 : ¬ (l = (1 : Int)) := by omega
  have h2 : ¬ (l = (2 : Int)) := by omega
  have h3 : ¬ (l = (3 : Int)) := by omega
  have h4 : ¬ (l = (4 : Int)) := by omega
  have h5 : ¬ (l = (5 : Int)) := by omega
  simp [LogLevel.render, DebugLevel, InfoLevel, WarnLevel, ErrorLevel,
    FatalLevel, PanicLevel, h0, h1, h2, h3, h4, h5]

/-- Witness for C9 at the out-of-range input 6. -/
theorem severity_render_total_canonical_witness :
    LogLevel.render 6 = ("UNKNOWN") :=
  severity_render_total_canonical.2.2.2.2.2.2 6 (Or.inr (by decide))

/-- C2: on every console handle (hence on every pair of a threshold X
among the six levels and a call level Y — all 36 combinations), the
leveled emission call at level Y emits iff Y is at least the handle's
threshold, the matching enablement query returns true iff Y is at least
the threshold, and query and emission gate agree exactly. -/
theorem console_gating_enablement_agree (c : ConsoleLogger) (y : CallLevel)
    (ts msg : String) (fs : List LogField) :
    (ConsoleLogger.emitLine c ts y msg fs).isSome = decide (c.level ≤ y.toLevel)
    ∧ ConsoleLogger.isEnabled c y = decide (c.level ≤ y.toLevel)
    ∧ ConsoleLogger.isEnabled c y = (ConsoleLogger.emitLine c ts y msg fs).isSome := by
  cases y <;>
    simp [ConsoleLogger.emitLine, ConsoleLogger.isEnabled, CallLevel.toLevel,
      ConsoleLogger.Debug, ConsoleLogger.Info, ConsoleLogger.Warn,
      ConsoleLogger.Error, ConsoleLogger.Fatal, ConsoleLogger.Panic,
      ConsoleLogger.IsDebugEnabled, ConsoleLogger.IsInfoEnabled,
      ConsoleLogger.IsWarnEnabled, ConsoleLogger.IsErrorEnabled,
      ConsoleLogger.IsFatalEnabled, ConsoleLogger.IsPanicEnabled,
      isSomeIte, isSomeItePair]

/-- C7: each formatted emission variant equals the unformatted variant
applied to the template-substituted message with no call-site fields:
same gating, message from substitution, no structured fields attached. -/
theorem formatted_variants_match_unformatted (c : ConsoleLogger)
    (ts fmtStr : String) (args : List Value) :
    c.Debugf ts fmtStr args = c.Debug ts (sprintf fmtStr args) []
    ∧ c.Infof ts fmtStr args = c.Info ts (sprintf fmtStr args) []
    ∧ c.Warnf ts fmtStr args = c.Warn ts (sprintf fmtStr args) []
    ∧ c.Errorf ts fmtStr args = c.Error ts (sprintf fmtStr args) []
    ∧ c.Fatalf ts fmtStr args = c.Fatal ts (sprintf fmtStr args) []
    ∧ c.Panicf ts fmtStr args = c.Panic ts (sprintf fmtStr args) [] :=
  ⟨rfl, rfl, rfl, rfl, rfl, rfl⟩

/-- C3: enrichment is copy-on-write: `WithField k v` yields a distinct
handle with the same level whose bound fields are the receiver's plus
the new one; the receiver's bound-field sequence is untouched (the
operation is a pure function of the receiver), and an emission on the
receiver uses exactly the receiver's bound fields plus the call-site
fields, so it does not include key `k` when neither held it. -/
theorem withField_copy_on_write (c : ConsoleLogger) (k : String) (v : Value)
    (fs : List LogField) :
    (c.WithField k v).GetLevel = c.GetLevel
    ∧ (c.WithField k v).fields = c.fields ++ [⟨k, v⟩]
    ∧ c.WithField k v ≠ c
    ∧ (¬ k ∈ c.fields.map LogField.key → ¬ k ∈ fs.map LogField.key →
        ¬ k ∈ (ConsoleLogger.allFields c fs).map LogField.key) := by
  refine ⟨rfl, by simp [ConsoleLogger.WithField, ConsoleLogger.WithFields], ?_, ?_⟩
  · intro h
    have h2 := congrArg (fun x => x.fields.length) h
    simp [ConsoleLogger.WithField, ConsoleLogger.WithFields] at h2
  · intro h1 h2
    simp only [ConsoleLogger.allFields, List.map_append, List.mem_append]
    exact not_or.mpr ⟨h1, h2⟩

/-- Witness for C3 at a fresh handle and fresh key. -/
theorem withField_copy_on_write_witness :
    ¬ ("a") ∈ (ConsoleLogger.allFields (NewConsoleLogger ("svc")) []).map LogField.key :=
  (withField_copy_on_write (NewConsoleLogger ("svc")) ("a") (.int 1) []).2.2.2
    (by decide) (by decide)

/-- C8: chained enrichment accumulates bound fields in call order
(the field keyed "a" precedes the one keyed "b"), duplicates are all
retained (the bound sequence is a plain concatenation), call-site
fields are appended after the bound fields, and the formatted line
renders that sequence in order. -/
theorem chained_enrichment_in_order (c : ConsoleLogger) (v1 v2 : Value)
    (fs gs callFs : List LogField) (ts msg : String) (l : LogLevel) :
    ((c.WithField ("a") v1).WithField ("b") v2).fields
        = c.fields ++ [⟨("a"), v1⟩, ⟨("b"), v2⟩]
    ∧ ((c.WithFields fs).WithFields gs).fields = c.fields ++ fs ++ gs
    ∧ ConsoleLogger.allFields ((c.WithField ("a") v1).WithField ("b") v2) callFs
        = c.fields ++ [⟨("a"), v1⟩, ⟨("b"), v2⟩] ++ callFs
    ∧ ((c.WithField ("a") v1).WithField ("b") v2).formatMessage ts l msg callFs
        = ts ++ " [" ++ l.render ++ "] [" ++ c.name ++ "] " ++ msg ++
            (fieldsString c.fields ++ fieldsString [⟨("a"), v1⟩]
              ++ fieldsString [⟨("b"), v2⟩] ++ fieldsString callFs) := by
  refine ⟨?_, ?_, ?_, ?_⟩
  · simp [ConsoleLogger.WithField, ConsoleLogger.WithFields]
  · simp [ConsoleLogger.WithFields]
  · simp [ConsoleLogger.allFields, ConsoleLogger.WithField, ConsoleLogger.WithFields]
  · simp only [ConsoleLogger.formatMessage, ConsoleLogger.allFields,
      ConsoleLogger.WithField, ConsoleLogger.WithFields, List.append_assoc,
      List.cons_append, List.nil_append, fieldsString_append, String.append_assoc]
    rw [show ((⟨("a"), v1⟩ : LogField) :: (⟨("b"), v2⟩ : LogField) :: callFs)
          = [(⟨("a"), v1⟩ : LogField)] ++ ([(⟨("b"), v2⟩ : LogField)] ++ callFs) from rfl,
      fieldsString_append, fieldsString_append]

/-- C10: the context bound by `WithContext` is inert on the console and
standard-library adapters: the new handle differs from the receiver
only in the stored context, and message formatting does not read the
context. -/
theorem withContext_inert (c : ConsoleLogger) (s : StdLogger) (ctx : GoContext)
    (ts msg : String) (l : LogLevel) (fs : List LogField) :
    (c.WithContext ctx).level = c.level
    ∧ (c.WithContext ctx).fields = c.fields
    ∧ (c.WithContext ctx).sink = c.sink
    ∧ (c.WithContext ctx).name = c.name
    ∧ (c.WithContext ctx).ctx = ctx
    ∧ (c.WithContext ctx).formatMessage ts l msg fs = c.formatMessage ts l msg fs
    ∧ (s.WithContext ctx).level = s.level
    ∧ (s.WithContext ctx).fields = s.fields
    ∧ (s.WithContext ctx).sink = s.sink
    ∧ (s.WithContext ctx).name = s.name
    ∧ (s.WithContext ctx).ctx = ctx
    ∧ (s.WithContext ctx).formatMessage l msg fs = s.formatMessage l msg fs :=
  ⟨rfl, rfl, rfl, rfl, rfl, rfl, rfl, rfl, rfl, rfl, rfl, rfl⟩

/-- C1: resolution is total — `CreateLoggerWithProvider` is a total
function into `Logger` (it can never fail), and its fallback chain is:
the named provider when registered; otherwise the provider registered
under the factory's default-provider name; otherwise the hard-coded
`NewConsoleLogger(name)`. -/
theorem createLoggerWithProvider_total_fallback (f : LogFactory)
    (name pn : String) :
    (∀ p, f.GetProvider pn = some p →
        f.CreateLoggerWithProvider name pn = p.Create name)
    ∧ (f.GetProvider pn = none → ∀ p, f.GetProvider f.defaultProvider = some p →
        f.CreateLoggerWithProvider name pn = p.Create name)
    ∧ (f.GetProvider pn = none → f.GetProvider f.defaultProvider = none →
        f.CreateLoggerWithProvider name pn = Logger.console (NewConsoleLogger name)) := by
  refine ⟨?_, ?_, ?_⟩ <;> intros <;>
    simp_all [LogFactory.CreateLoggerWithProvider]

/-- Witness for C1: an unknown provider name on the fully registered
factory degrades to the default console provider, and on an empty
factory to the hard-coded console logger. -/
theorem createLoggerWithProvider_total_fallback_witness :
    GetLogFactory.CreateLoggerWithProvider ("svc") ("does-not-exist")
        = consoleLoggerProvider.Create ("svc")
    ∧ NewLogFactory.CreateLoggerWithProvider ("svc") ("does-not-exist")
        = Logger.console (NewConsoleLogger ("svc")) :=
  ⟨(createLoggerWithProvider_total_fallback GetLogFactory ("svc")
      ("does-not-exist")).2.1 rfl consoleLoggerProvider rfl,
    (createLoggerWithProvider_total_fallback NewLogFactory ("svc")
      ("does-not-exist")).2.2 rfl rfl⟩

/-- C5: with an empty configuration map the "provider" key is absent,
so `CreateLoggerWithConfig` resolves the default provider exactly as
`CreateLogger` does; when that provider is the console provider, the
logger built by `CreateWithConfig` under the defaults (level Info,
format "text", output stdout) equals the logger built by `Create`, so
the two factory calls agree. -/
theorem createLoggerWithConfig_empty_matches_create (f : LogFactory)
    (name : String)
    (hd : f.GetProvider f.defaultProvider = some consoleLoggerProvider) :
    f.CreateLoggerWithConfig name [] = f.CreateLogger name
    ∧ consoleLoggerProvider.CreateWithConfig name []
        = consoleLoggerProvider.Create name
    ∧ consoleLoggerProvider.CreateWithConfig name []
        = Logger.console
            { level := InfoLevel, fields := [], ctx := .background,
              sink := .stdout, name := name } := by
  refine ⟨?_, rfl, rfl⟩
  simp [LogFactory.CreateLoggerWithConfig, LogFactory.CreateLogger,
    LogFactory.CreateLoggerWithProvider, hd, configGetString, configLookup]
  rfl

/-- Witness for C5 on the fully registered factory, whose default
provider is the console provider. -/
theorem createLoggerWithConfig_empty_matches_create_witness :
    GetLogFactory.CreateLoggerWithConfig ("svc") [] = GetLogFactory.CreateLogger ("svc") :=
  (createLoggerWithConfig_empty_matches_create GetLogFactory ("svc") rfl).1

/-- C4 counterexample: in the initial state (before any `GetLogger`
call has fired the one-shot initializer), `SetGlobalLogger(L3)`
followed by `GetLogger()` does not return `L3`: the initializer runs on
that first call and overwrites the global logger. -/
theorem setGlobalLogger_overwritten_counterexample :
    ¬ ((GetLogger (SetGlobalLogger initialGlobalState otherLogger)).1
        = some otherLogger) := by
  intro h
  have e : (GetLogger (SetGlobalLogger initialGlobalState otherLogger)).1
      = some (Logger.console (NewConsoleLogger ("global"))) := rfl
  rw [e] at h
  simp [otherLogger, NewConsoleLogger, NewStdLogger] at h

/-- C4, amended: two `GetLogger()` calls without an intervening
`SetGlobalLogger` return the same instance; when the one-shot
initializer has not yet fired, the instance is the one built by the
factory's `CreateLogger("global")`; and `GetLogger()` after
`SetGlobalLogger(L)` returns `L` provided the initializer has already
fired (in particular after any earlier `GetLogger()` call). -/
theorem getLogger_identity_amended (s : GlobalLoggerState) (g : Option Logger)
    (L : Logger) :
    (GetLogger (GetLogger s).2).1 = (GetLogger s).1
    ∧ (GetLogger { globalLogger := g, loggerOnce := false }).1
        = some (GetLogFactory.CreateLogger ("global"))
    ∧ (GetLogger (SetGlobalLogger { globalLogger := g, loggerOnce := true } L)).1
        = some L
    ∧ (GetLogger (SetGlobalLogger (GetLogger s).2 L)).1 = some L := by
  refine ⟨?_, ?_, ?_, ?_⟩ <;>
    by_cases h : s.loggerOnce <;>
      simp [GetLogger, SetGlobalLogger, h]

/-- C6 counterexample: on a handle whose threshold is the Panic level,
`Fatal` neither emits nor terminates the process (the gate
`c.level <= FatalLevel` fails), refuting "Fatal always emits and then
terminates, for every threshold value". -/
theorem fatal_always_terminates_counterexample :
    ¬ ((panicThresholdLogger.Fatal ("ts") ("boom") []).2 = Outcome.exited 1) := by
  decide

/-- C6, amended: on every handle, `Fatal`/`Fatalf` emit the record and
terminate the process exactly when the handle's threshold is at most
the Fatal level, and otherwise neither emit nor terminate (a Panic
threshold suppresses both the record and the exit); `Panic`/`Panicf`
emit and then raise a panic carrying the formatted message on every
handle whose threshold is any of the six declared levels (every handle
`c.SetLevel x`, with `c` arbitrary and `x` a declared level). -/
theorem fatal_panic_outcomes_amended (c : ConsoleLogger) (x : CallLevel)
    (ts msg fmtStr : String) (fs : List LogField) (args : List Value) :
    (c.Fatal ts msg fs
        = if c.level ≤ FatalLevel
            then (some (c.formatMessage ts FatalLevel msg fs), Outcome.exited 1)
            else (none, Outcome.normal))
    ∧ (c.Fatalf ts fmtStr args
        = if c.level ≤ FatalLevel
            then (some (c.formatMessage ts FatalLevel (sprintf fmtStr args) []),
                  Outcome.exited 1)
            else (none, Outcome.normal))
    ∧ ((c.SetLevel x.toLevel).Panic ts msg fs
        = (some ((c.SetLevel x.toLevel).formatMessage ts PanicLevel msg fs),
           Outcome.panicked ((c.SetLevel x.toLevel).formatMessage ts PanicLevel msg fs)))
    ∧ ((c.SetLevel x.toLevel).Panicf ts fmtStr args
        = (some ((c.SetLevel x.toLevel).formatMessage
              ts PanicLevel (sprintf fmtStr args) []),
           Outcome.panicked ((c.SetLevel x.toLevel).formatMessage
              ts PanicLevel (sprintf fmtStr args) []))) := by
  refine ⟨rfl, rfl, ?_, ?_⟩
  · cases x <;>
      simp [ConsoleLogger.Panic, ConsoleLogger.SetLevel,
        CallLevel.toLevel, DebugLevel, InfoLevel, WarnLevel, ErrorLevel,
        FatalLevel, PanicLevel]
  · cases x <;>
      simp [ConsoleLogger.Panicf, ConsoleLogger.SetLevel,
        CallLevel.toLevel, DebugLevel, InfoLevel, WarnLevel, ErrorLevel,
        FatalLevel, PanicLevel]
